import Mathlib

/-!
Shallow embedding of the hover API client (src/hover.go) and proofs about
its typed JSON decoding layer, envelope protocol, login handshake and
operations catalog.

Go byte slices are modelled as `List Char` (one `Char` per byte; all inputs
of interest are ASCII).  A Go function that may panic, return an error, or
return a value is modelled with the `GoResult` sum.  `Client.do` is modelled
as a single transport interaction whose outcome (`DoResult`) the caller
supplies; each operation returns the list of HTTP requests it issued
together with its Go return value.
-/

namespace Hover

/-- Go byte slice, one `Char` per byte. -/
abbrev Bytes := List Char

/-- Result of running a Go function body: a runtime panic, a non-nil
returned `error`, or a normal value. -/
inductive GoResult (α : Type) where
  | panic (msg : String)
  | error (msg : String)
  | ok (val : α)
deriving DecidableEq, Repr

/-- Functorial action on the `ok` branch of `GoResult`. -/
def GoResult.map {α β : Type} (f : α → β) : GoResult α → GoResult β
  | .panic m => .panic m
  | .error m => .error m
  | .ok a => .ok (f a)

/-- True exactly on the `panic` branch. -/
def GoResult.isPanic {α : Type} : GoResult α → Bool
  | .panic _ => true
  | _ => false

/-- Upper-case hexadecimal digit for a value below 16. -/
def hexDigit (n : Nat) : Char :=
  if n < 10 then Char.ofNat (48 + n) else Char.ofNat (55 + n)

/-- Escape one byte the way Go's `%#v` renders it inside a quoted string:
backslash and double quote are backslash-escaped, control bytes are shown
as a hex escape, and other (printable ASCII) bytes stand for themselves. -/
def goEscapeChar (c : Char) : String :=
  if c = '"' then "\\\""
  else if c = '\\' then "\\\\"
  else if c.toNat < 32 then
    "\\x" ++ String.mk [hexDigit (c.toNat / 16), hexDigit (c.toNat % 16)]
  else String.singleton c

/-- Go `fmt`'s `%#v` rendering of `string(b)`: the bytes, escaped, inside
double quotes. -/
def goQuote (b : Bytes) : String :=
  "\"" ++ String.join (b.map goEscapeChar) ++ "\""

/-- Shared body of the quote-stripping `UnmarshalJSON` methods
(`RecordType`, `DomainID`, `DNSRecordID`, `Date`, `YearMonth`):

    if b[0] == '"' && b[len(b)-1] == '"' { b = b[1 : len(b)-1] }
    else { return fmt.Errorf("unable to parse a <typeName> from %#v", string(b)) }

`b[0]` panics when the slice is empty, and the reslice `b[1:0]` panics on
the one-byte input `"` (the only one-byte input that passes both tests). -/
def unquote (b : Bytes) (typeName : String) : GoResult Bytes :=
  if b.length = 0 then
    .panic "runtime error: index out of range [0] with length 0"
  else if b.head?.getD '\x00' = '"' ∧ b.getLast?.getD '\x00' = '"' then
    if b.length < 2 then
      .panic "runtime error: slice bounds out of range [1:0]"
    else
      .ok ((b.drop 1).dropLast)
  else
    .error ("unable to parse a " ++ typeName ++ " from " ++ goQuote b)

/-- Embedding of `RecordType.UnmarshalJSON` (src/hover.go:23). -/
def RecordType.unmarshalJSON (b : Bytes) : GoResult String :=
  (unquote b "RecordType").map String.mk

/-- Embedding of `DomainID.UnmarshalJSON` (src/hover.go:171).  The error
message in the source names `DNSRecordID`, not `DomainID`. -/
def DomainID.unmarshalJSON (b : Bytes) : GoResult String :=
  (unquote b "DNSRecordID").map String.mk

/-- Embedding of `DNSRecordID.UnmarshalJSON` (src/hover.go:185). -/
def DNSRecordID.unmarshalJSON (b : Bytes) : GoResult String :=
  (unquote b "DNSRecordID").map String.mk

/-- The encode direction for opaque identifiers: outgoing requests
serialize an ID as the plain string itself (`string(domainID)` in the URL
builders), so encoding is byte extraction. -/
def encodeID (id : String) : Bytes := id.data

/-- Decimal digit value of a byte, for Go's numeric parsers. -/
def digitVal (c : Char) : Option Nat :=
  if c.isDigit then some (c.toNat - 48) else none

/-- Nonempty all-digit run parsed as a natural number. -/
def digitsToNat (l : List Char) : Option Nat :=
  if l = [] then none
  else if l.all Char.isDigit then
    some (l.foldl (fun acc c => acc * 10 + (c.toNat - 48)) 0)
  else none

/-- Embedding of Go `strconv.Atoi`: optional sign, then a nonempty run of
decimal digits; values outside the 64-bit signed range give `ErrRange`
(modelled as `none`, since the caller only tests `err != nil`). -/
def atoi (b : Bytes) : Option Int :=
  let signAndRest : Int × Bytes :=
    match b with
    | '+' :: r => (1, r)
    | '-' :: r => (-1, r)
    | r => (1, r)
  match digitsToNat signAndRest.2 with
  | none => none
  | some n =>
    let v : Int := signAndRest.1 * n
    if v < -(2 ^ 63) ∨ 2 ^ 63 - 1 < v then none else some v

/-- Go `time.Second`, in the nanoseconds of `time.Duration`. -/
def timeSecond : Int := 1000000000

/-- Wrap an integer into the signed 64-bit range, as Go's `int64`
arithmetic does. -/
def int64wrap (x : Int) : Int :=
  (x + 2 ^ 63) % 2 ^ 64 - 2 ^ 63

/-- Embedding of `TTL.UnmarshalJSON` (src/hover.go:219): `strconv.Atoi` on
the raw bytes, failure keeps the raw text in the message (`%s`), success
stores `time.Duration(val) * time.Second` nanoseconds. -/
def TTL.unmarshalJSON (b : Bytes) : GoResult Int :=
  match atoi b with
  | none => .error ("unable to parse a TTL from " ++ String.mk b)
  | some val => .ok (int64wrap (val * timeSecond))

/-- Leap-year rule used by Go's `time` package date validation. -/
def isLeap (y : Nat) : Bool := y % 4 = 0 ∧ (y % 100 ≠ 0 ∨ y % 400 = 0)

/-- Number of days in a month, for date validation. -/
def daysIn (y m : Nat) : Nat :=
  if m = 2 then (if isLeap y then 29 else 28)
  else if m = 4 ∨ m = 6 ∨ m = 9 ∨ m = 11 then 30
  else 31

/-- Embedding of `time.Parse("2006-01-02", s)`: exactly four year digits,
two month digits and two day digits separated by hyphens, with the month
and day range-checked; `some (year, month, day)` on success. -/
def parseYMD (b : Bytes) : Option (Nat × Nat × Nat) :=
  match b with
  | [y1, y2, y3, y4, '-', m1, m2, '-', d1, d2] =>
    if [y1, y2, y3, y4, m1, m2, d1, d2].all Char.isDigit then
      let y := (((y1.toNat - 48) * 10 + (y2.toNat - 48)) * 10 + (y3.toNat - 48)) * 10
        + (y4.toNat - 48)
      let m := (m1.toNat - 48) * 10 + (m2.toNat - 48)
      let d := (d1.toNat - 48) * 10 + (d2.toNat - 48)
      if 1 ≤ m ∧ m ≤ 12 ∧ 1 ≤ d ∧ d ≤ daysIn y m then some (y, m, d) else none
    else none
  | _ => none

/-- Embedding of `time.Parse("2006/01", s)`: four year digits, a slash,
two month digits, month range-checked; `some (year, month)` on success. -/
def parseYM (b : Bytes) : Option (Nat × Nat) :=
  match b with
  | [y1, y2, y3, y4, '/', m1, m2] =>
    if [y1, y2, y3, y4, m1, m2].all Char.isDigit then
      let y := (((y1.toNat - 48) * 10 + (y2.toNat - 48)) * 10 + (y3.toNat - 48)) * 10
        + (y4.toNat - 48)
      let m := (m1.toNat - 48) * 10 + (m2.toNat - 48)
      if 1 ≤ m ∧ m ≤ 12 then some (y, m) else none
    else none
  | _ => none

/-- Message of the `*time.ParseError` returned by `time.Parse` on failure.
No theorem below inspects this text; it is modelled as the standard prefix
of Go's `ParseError.Error()` rendering. -/
def timeParseErrMsg (layout : String) (value : Bytes) : String :=
  "parsing time " ++ goQuote value ++ " as \"" ++ layout ++ "\": cannot parse"

/-- Embedding of `Date.UnmarshalJSON` (src/hover.go:234).  After stripping
quotes the source runs `d.Time, err = time.Parse("2006-01-02", string(b))`
and then returns `fmt.Errorf("unable to parse the Date string: %s", err)`
unconditionally — also when `err` is nil, where `%s` of the nil error
prints `%!s(<nil>)` — so the method never returns nil. -/
def Date.unmarshalJSON (b : Bytes) : GoResult (Nat × Nat × Nat) :=
  match unquote b "Date" with
  | .panic m => .panic m
  | .error m => .error m
  | .ok content =>
    match parseYMD content with
    | some _ => .error "unable to parse the Date string: %!s(<nil>)"
    | none =>
      .error ("unable to parse the Date string: " ++ timeParseErrMsg "2006-01-02" content)

/-- Embedding of `YearMonth.UnmarshalJSON` (src/hover.go:252), with the
same unconditional error return as `Date.UnmarshalJSON`. -/
def YearMonth.unmarshalJSON (b : Bytes) : GoResult (Nat × Nat) :=
  match unquote b "YearMonth" with
  | .panic m => .panic m
  | .error m => .error m
  | .ok content =>
    match parseYM content with
    | some _ => .error "unable to parse the YearMonth string: %!s(<nil>)"
    | none =>
      .error ("unable to parse the YearMonth string: " ++ timeParseErrMsg "2006/01" content)

/-- Base API origin (`defaultURL` in the source). -/
def defaultURL : String := "https://www.hover.com/api"

/-- Go's `url.QueryEscape` on one byte: unreserved bytes stand for
themselves, space becomes `+`, everything else becomes a percent escape
with upper-case hex. -/
def queryEscapeChar (c : Char) : String :=
  if ('A' ≤ c ∧ c ≤ 'Z') ∨ ('a' ≤ c ∧ c ≤ 'z') ∨ ('0' ≤ c ∧ c ≤ '9')
      ∨ c = '-' ∨ c = '_' ∨ c = '.' ∨ c = '~' then
    String.singleton c
  else if c = ' ' then "+"
  else "%" ++ String.mk [hexDigit (c.toNat / 16), hexDigit (c.toNat % 16)]

/-- Go's `url.QueryEscape` over a whole string (ASCII bytes). -/
def queryEscape (s : String) : String :=
  String.join (s.data.map queryEscapeChar)

/-- Insert a key/value pair into a key-sorted association list. -/
def insertSorted (kv : String × String) : List (String × String) → List (String × String)
  | [] => [kv]
  | h :: t => if kv.1 ≤ h.1 then kv :: h :: t else h :: insertSorted kv t

/-- Go's `url.Values.Encode()`: pairs sorted by key, each rendered as
`key=QueryEscape(value)` and joined with `&`. -/
def urlValuesEncode (kvs : List (String × String)) : String :=
  let sorted := kvs.foldl (fun acc kv => insertSorted kv acc) []
  String.intercalate "&" (sorted.map (fun kv => kv.1 ++ "=" ++ queryEscape kv.2))

/-- An HTTP cookie as far as the client looks at one: name and value. -/
structure Cookie where
  name : String
  value : String
deriving DecidableEq, Repr

/-- Outcome of the transport GET issued by `Login`: a transport error, or
a response with a status code and its cookies. -/
inductive HTTPResult where
  | err (msg : String)
  | resp (statusCode : Int) (cookies : List Cookie)
deriving DecidableEq, Repr

/-- Return value of `Login`: a propagated transport error, an
`InvalidLogin` error string, or the `hoverauth` cookie. -/
inductive LoginResult where
  | err (msg : String)
  | invalidLogin (msg : String)
  | ok (cookie : Cookie)
deriving DecidableEq, Repr

/-- Response handling of `Login` (src/hover.go:60): propagate a transport
error; any status other than 200 is `InvalidLogin` naming the status; else
the first cookie named `hoverauth` with a non-empty value is returned, and
its absence is `InvalidLogin` with the missing-cookie message. -/
def loginResponse (r : HTTPResult) : LoginResult :=
  match r with
  | .err m => .err m
  | .resp statusCode cookies =>
    if statusCode ≠ 200 then
      .invalidLogin ("login HTTP status code was " ++ toString statusCode)
    else
      match cookies.find? (fun c => c.name == "hoverauth" && c.value != "") with
      | some c => .ok c
      | none => .invalidLogin "unable to find 'hoverauth' cookie with data in response"

/-- Embedding of `Login` (src/hover.go:60): the URL it requests (username
and password as query parameters on the login endpoint) and the result of
handling the response the transport produced. -/
def Login (username password : String) (r : HTTPResult) : String × LoginResult :=
  (defaultURL ++ "/login?"
      ++ urlValuesEncode [("username", username), ("password", password)],
    loginResponse r)

/-- JSON value, for the untyped `glue` field of `Domain`. -/
inductive JSON where
  | null
  | bool (b : Bool)
  | num (n : Int)
  | str (s : String)
  | arr (elems : List JSON)
  | obj (fields : List (String × JSON))

/-- A parsed calendar date (the `Date` wrapper around `time.Time`). -/
structure DateT where
  year : Nat
  month : Nat
  day : Nat
deriving DecidableEq, Repr

/-- A parsed year and month (the `YearMonth` wrapper around `time.Time`). -/
structure YearMonthT where
  year : Nat
  month : Nat
deriving DecidableEq, Repr

/-- Embedding of `Contact` (src/hover.go:123). -/
structure Contact where
  firstName : String
  lastName : String
  orgName : String
  email : String
  phone : String
  fax : String
  city : String
  state : String
  zipCode : String
  country : String
  address1 : String
  address2 : String
  address3 : String
deriving DecidableEq, Repr

/-- Embedding of `Contacts` (src/hover.go:140). -/
structure Contacts where
  admin : Contact
  owner : Contact
  tech : Contact
deriving DecidableEq, Repr

/-- Embedding of `Billing` (src/hover.go:106). -/
structure Billing where
  payMode : String
  cardNumber : String
  cardExpires : YearMonthT
  firstName : String
  lastName : String
  address1 : String
  address2 : String
  city : String
  state : String
  country : String
  postalCode : String
  phone : String
deriving DecidableEq, Repr

/-- Embedding of `User` (src/hover.go:98). -/
structure User where
  email : String
  emailSecondary : String
  billing : Billing
deriving DecidableEq, Repr

/-- Embedding of `Domain` (src/hover.go:147); `glue` is the untyped
`map[string]interface{}` field. -/
structure Domain where
  id : String
  status : String
  domainName : String
  renewalDate : DateT
  displayDate : DateT
  glue : List (String × JSON)
  hoverUser : User
  nameservers : List String
  renewable : Bool
  autoRenew : Bool
  locked : Bool
  whoisPrivacy : Bool
  numEmails : Int
  contacts : Contacts
  registeredDate : DateT

/-- Embedding of `DNSRecord` (src/hover.go:196); `ttl` is a
`time.Duration` in nanoseconds. -/
structure DNSRecord where
  id : String
  type : String
  name : String
  content : String
  ttl : Int
  isDefault : Bool
  canRevert : Bool
deriving DecidableEq, Repr

/-- Embedding of `DNSDomain` (src/hover.go:207). -/
structure DNSDomain where
  id : String
  domainName : String
  active : Bool
  entries : List DNSRecord
deriving DecidableEq, Repr

/-- Embedding of `NewDNSRecord` (src/hover.go:350); `ttl` is a
`time.Duration` in nanoseconds. -/
structure NewDNSRecord where
  type : String
  name : String
  content : String
  ttl : Int
deriving DecidableEq, Repr

/-- The shared response envelope `hoverResp` (src/hover.go:91):
`succeeded`, `error_code` and `error` fields. -/
structure HoverResp where
  succeeded : Bool
  errorCode : String
  errorMsg : String
deriving DecidableEq, Repr

/-- An outbound HTTP request, as built by an operation. -/
structure Request where
  method : String
  url : String
deriving DecidableEq, Repr

/-- Outcome of `Client.do` (src/hover.go:398) as the operation sees it:
either a non-nil error (request construction, transport, body read, or
JSON unmarshal), after which the operation returns that error, or a nil
error together with the HTTP status code and the decoded envelope plus
payload. -/
inductive DoResult (α : Type) where
  | err (msg : String)
  | ok (statusCode : Int) (decoded : α)

/-- Error value returned by an operation: a plain error built in the
operation itself (`errors.New`, the client-side preconditions), an error
propagated from `Client.do`, or a `*APIError` with its three fields. -/
inductive OpError where
  | plain (msg : String)
  | fromDo (msg : String)
  | api (statusCode : Int) (errorCode : String) (errorMsg : String)
deriving DecidableEq, Repr

/-- Embedding of `Client.Domains` (src/hover.go:280): one GET to
`/domains`; a `do` error is propagated; a non-succeeded envelope becomes
`APIError{code, error_code, error}`; otherwise the payload is returned. -/
def Client.Domains (tr : DoResult (HoverResp × List Domain)) :
    List Request × Except OpError (List Domain) :=
  let reqs := [⟨"GET", defaultURL ++ "/domains"⟩]
  match tr with
  | .err m => (reqs, .error (.fromDo m))
  | .ok code dr =>
    if !dr.1.succeeded then
      (reqs, .error (.api code dr.1.errorCode dr.1.errorMsg))
    else
      (reqs, .ok dr.2)

/-- Embedding of `Client.DNS` (src/hover.go:296): one GET to `/dns` with
the same envelope handling. -/
def Client.DNS (tr : DoResult (HoverResp × List DNSDomain)) :
    List Request × Except OpError (List DNSDomain) :=
  let reqs := [⟨"GET", defaultURL ++ "/dns"⟩]
  match tr with
  | .err m => (reqs, .error (.fromDo m))
  | .ok code dr =>
    if !dr.1.succeeded then
      (reqs, .error (.api code dr.1.errorCode dr.1.errorMsg))
    else
      (reqs, .ok dr.2)

/-- Embedding of `Client.GetDomain` (src/hover.go:309): an empty
`domainID` returns `errors.New("empty domainID")` before any request;
otherwise one GET to `/domains/{domainID}` with the envelope handling. -/
def Client.GetDomain (domainID : String) (tr : DoResult (HoverResp × Option Domain)) :
    List Request × Except OpError (Option Domain) :=
  if domainID = "" then
    ([], .error (.plain "empty domainID"))
  else
    let reqs := [⟨"GET", defaultURL ++ "/domains/" ++ domainID⟩]
    match tr with
    | .err m => (reqs, .error (.fromDo m))
    | .ok code dr =>
      if !dr.1.succeeded then
        (reqs, .error (.api code dr.1.errorCode dr.1.errorMsg))
      else
        (reqs, .ok dr.2)

/-- Embedding of `Client.GetDNSDomains` (src/hover.go:334): an empty
`domainID` returns `errors.New("empty domainID")` before any request;
otherwise one GET to `/domains/{domainID}/dns`. -/
def Client.GetDNSDomains (domainID : String)
    (tr : DoResult (HoverResp × List DNSDomain)) :
    List Request × Except OpError (List DNSDomain) :=
  if domainID = "" then
    ([], .error (.plain "empty domainID"))
  else
    let reqs := [⟨"GET", defaultURL ++ "/domains/" ++ domainID ++ "/dns"⟩]
    match tr with
    | .err m => (reqs, .error (.fromDo m))
    | .ok code dr =>
      if !dr.1.succeeded then
        (reqs, .error (.api code dr.1.errorCode dr.1.errorMsg))
      else
        (reqs, .ok dr.2)

/-- Embedding of `Client.AddDNSRecord` (src/hover.go:359): empty
`domainID` and then empty `rec.Content` are rejected before any request;
otherwise one POST to `/domains/{domainID}/dns?type=&name=&content=&ttl=`
with `ttl` serialized as whole seconds (`rec.TTL / time.Second`,
Go integer division truncating toward zero). -/
def Client.AddDNSRecord (domainID : String) (rec : NewDNSRecord)
    (tr : DoResult HoverResp) : List Request × Except OpError Unit :=
  if domainID = "" then
    ([], .error (.plain "empty domainID"))
  else if rec.content = "" then
    ([], .error (.plain "Content can't be empty"))
  else
    let v := urlValuesEncode
      [("type", rec.type), ("name", rec.name), ("content", rec.content),
        ("ttl", toString (Int.tdiv rec.ttl timeSecond))]
    let reqs := [⟨"POST", defaultURL ++ "/domains/" ++ domainID ++ "/dns?" ++ v⟩]
    match tr with
    | .err m => (reqs, .error (.fromDo m))
    | .ok code dr =>
      if !dr.succeeded then
        (reqs, .error (.api code dr.errorCode dr.errorMsg))
      else
        (reqs, .ok ())

/-- Embedding of `Client.DeleteDNSRecord` (src/hover.go:383): no
client-side validation; one DELETE to `/dns/{dnsID}` with the envelope
handling. -/
def Client.DeleteDNSRecord (dnsID : String) (tr : DoResult HoverResp) :
    List Request × Except OpError Unit :=
  let reqs := [⟨"DELETE", defaultURL ++ "/dns/" ++ dnsID⟩]
  match tr with
  | .err m => (reqs, .error (.fromDo m))
  | .ok code dr =>
    if !dr.succeeded then
      (reqs, .error (.api code dr.errorCode dr.errorMsg))
    else
      (reqs, .ok ())

/-! ## Theorems -/

/-- C1: the claim says `Date` decoding of the quoted wire string
`"2020-03-05"` succeeds with March 5, 2020, and `YearMonth` decoding
succeeds on a well-formed quoted `YYYY/MM` string.  In the source both
decoders return a wrapped error unconditionally — even when the underlying
`time.Parse` succeeds — so decoding these well-formed inputs fails: the
parse itself succeeds (first and third conjuncts) yet the decoder returns
the wrapped-nil-error message (second and fourth conjuncts). -/
theorem c1_date_yearmonth_decode_never_succeeds :
    parseYMD ("2020-03-05".data) = some (2020, 3, 5) ∧
    Date.unmarshalJSON ("\"2020-03-05\"".data)
      = .error "unable to parse the Date string: %!s(<nil>)" ∧
    parseYM ("2020/03".data) = some (2020, 3) ∧
    YearMonth.unmarshalJSON ("\"2020/03\"".data)
      = .error "unable to parse the YearMonth string: %!s(<nil>)" := by
  refine ⟨by decide, by decide, by decide, by decide⟩

/-- C8: the claim says every scalar codec's decode failure names the
target type being decoded, e.g. a failed `DomainID` decode names
`DomainID`.  On the unquoted input `123`, the `DNSRecordID`, `RecordType`,
`Date`, `YearMonth` and `TTL` codecs do name their own type, but the
`DomainID` codec's failure message names `DNSRecordID` (first conjunct), a
copy-paste slip contradicting the method's own documented purpose. -/
theorem c8_decode_error_names :
    DomainID.unmarshalJSON ("123".data)
      = .error "unable to parse a DNSRecordID from \"123\"" ∧
    DNSRecordID.unmarshalJSON ("123".data)
      = .error "unable to parse a DNSRecordID from \"123\"" ∧
    RecordType.unmarshalJSON ("123".data)
      = .error "unable to parse a RecordType from \"123\"" ∧
    Date.unmarshalJSON ("123".data)
      = .error "unable to parse a Date from \"123\"" ∧
    YearMonth.unmarshalJSON ("123".data)
      = .error "unable to parse a YearMonth from \"123\"" ∧
    TTL.unmarshalJSON ("abc".data)
      = .error "unable to parse a TTL from abc" := by
  refine ⟨by decide, by decide, by decide, by decide, by decide, by decide⟩

/-- C3 counterexample: a response with the non-2xx status 404 whose
envelope has `succeeded:true` does not fail with an `APIError` — the call
returns the payload, because operations never inspect the status code
except to record it inside an `APIError` built for `succeeded:false`. -/
theorem c3_nonok_status_not_failing :
    (Client.DNS (.ok 404 (⟨true, "", ""⟩, []))).2 = .ok ([] : List DNSDomain) := rfl

/-- C10 counterexample: the quote-stripping decoders are not total — on
the empty input `b[0]` is an out-of-bounds index, and on the single byte
`"` the reslice `b[1:0]` is an out-of-bounds slice. -/
theorem c10_decoders_panic :
    RecordType.unmarshalJSON []
      = .panic "runtime error: index out of range [0] with length 0" ∧
    Date.unmarshalJSON []
      = .panic "runtime error: index out of range [0] with length 0" ∧
    DomainID.unmarshalJSON ['"']
      = .panic "runtime error: slice bounds out of range [1:0]" := by
  refine ⟨by decide, by decide, by decide⟩

/-- C6: `TTL` decode of the bare input `900` succeeds with a duration of
exactly 900 seconds (in `time.Duration` nanoseconds); the quoted input
`"900"` fails; and every input `strconv.Atoi` rejects fails with a message
that carries the offending raw text verbatim. -/
theorem c6_ttl_decode (b : Bytes) (h : atoi b = none) :
    TTL.unmarshalJSON ("900".data) = .ok (900 * timeSecond) ∧
    TTL.unmarshalJSON ("\"900\"".data)
      = .error "unable to parse a TTL from \"900\"" ∧
    TTL.unmarshalJSON b = .error ("unable to parse a TTL from " ++ String.mk b) := by
  refine ⟨by decide, by decide, ?_⟩
  unfold TTL.unmarshalJSON
  rw [h]

/-- Instance of `c6_ttl_decode` at the concrete non-numeric input `abc`. -/
theorem c6_ttl_decode_witness :
    TTL.unmarshalJSON ("abc".data)
      = .error ("unable to parse a TTL from " ++ String.mk ("abc".data)) :=
  (c6_ttl_decode ("abc".data) (by decide)).2.2

/-- C2: for every operation, when the decoded envelope has
`succeeded:false`, the call fails with exactly
`APIError{StatusCode, ErrorCode, ErrorMsg}` built from the HTTP status
code and the envelope's two error fields, and no payload value is
returned, whatever the payload contained. -/
theorem c2_envelope_failure_is_api_error (code : Int) (ec em : String)
    (domainID dnsID : String) (rec : NewDNSRecord) (ds : List Domain)
    (d : Option Domain) (dds dds2 : List DNSDomain)
    (hd : domainID ≠ "") (hc : rec.content ≠ "") :
    (Client.Domains (.ok code (⟨false, ec, em⟩, ds))).2 = .error (.api code ec em) ∧
    (Client.DNS (.ok code (⟨false, ec, em⟩, dds))).2 = .error (.api code ec em) ∧
    (Client.GetDomain domainID (.ok code (⟨false, ec, em⟩, d))).2
      = .error (.api code ec em) ∧
    (Client.GetDNSDomains domainID (.ok code (⟨false, ec, em⟩, dds2))).2
      = .error (.api code ec em) ∧
    (Client.AddDNSRecord domainID rec (.ok code ⟨false, ec, em⟩)).2
      = .error (.api code ec em) ∧
    (Client.DeleteDNSRecord dnsID (.ok code ⟨false, ec, em⟩)).2
      = .error (.api code ec em) := by
  refine ⟨rfl, rfl, ?_, ?_, ?_, rfl⟩
  · unfold Client.GetDomain
    rw [if_neg hd]
    rfl
  · unfold Client.GetDNSDomains
    rw [if_neg hd]
    rfl
  · unfold Client.AddDNSRecord
    rw [if_neg hd, if_neg hc]
    rfl

/-- Instance of `c2_envelope_failure_is_api_error` at status 400, error
code `E1`, error message `bad`, with concrete arguments and payloads. -/
theorem c2_envelope_failure_witness :
    (Client.Domains (.ok 400 (⟨false, "E1", "bad"⟩, []))).2
      = .error (.api 400 "E1" "bad") ∧
    (Client.DNS (.ok 400 (⟨false, "E1", "bad"⟩, []))).2
      = .error (.api 400 "E1" "bad") ∧
    (Client.GetDomain "d1" (.ok 400 (⟨false, "E1", "bad"⟩, none))).2
      = .error (.api 400 "E1" "bad") ∧
    (Client.GetDNSDomains "d1" (.ok 400 (⟨false, "E1", "bad"⟩, []))).2
      = .error (.api 400 "E1" "bad") ∧
    (Client.AddDNSRecord "d1" ⟨"A", "www", "203.0.113.7", 900 * timeSecond⟩
        (.ok 400 ⟨false, "E1", "bad"⟩)).2 = .error (.api 400 "E1" "bad") ∧
    (Client.DeleteDNSRecord "r1" (.ok 400 ⟨false, "E1", "bad"⟩)).2
      = .error (.api 400 "E1" "bad") :=
  c2_envelope_failure_is_api_error 400 "E1" "bad" "d1" "r1"
    ⟨"A", "www", "203.0.113.7", 900 * timeSecond⟩ [] none [] []
    (by decide) (by decide)

/-- C3 amended: an operation fails with an `APIError` exactly when the
decoded envelope has `succeeded:false`; the HTTP status code — non-2xx
included — never causes failure by itself and is only recorded in the
`APIError`'s `StatusCode` field, while a `succeeded:true` envelope makes
the call return its payload whatever the status code. -/
theorem c3_api_error_iff_not_succeeded (code : Int) (env : HoverResp)
    (domainID dnsID : String) (rec : NewDNSRecord) (ds : List Domain)
    (d : Option Domain) (dds dds2 : List DNSDomain)
    (hd : domainID ≠ "") (hc : rec.content ≠ "") :
    ((Client.Domains (.ok code (env, ds))).2
        = .error (.api code env.errorCode env.errorMsg) ↔ env.succeeded = false) ∧
    (env.succeeded = true → (Client.Domains (.ok code (env, ds))).2 = .ok ds) ∧
    ((Client.DNS (.ok code (env, dds))).2
        = .error (.api code env.errorCode env.errorMsg) ↔ env.succeeded = false) ∧
    (env.succeeded = true → (Client.DNS (.ok code (env, dds))).2 = .ok dds) ∧
    ((Client.GetDomain domainID (.ok code (env, d))).2
        = .error (.api code env.errorCode env.errorMsg) ↔ env.succeeded = false) ∧
    (env.succeeded = true →
      (Client.GetDomain domainID (.ok code (env, d))).2 = .ok d) ∧
    ((Client.GetDNSDomains domainID (.ok code (env, dds2))).2
        = .error (.api code env.errorCode env.errorMsg) ↔ env.succeeded = false) ∧
    (env.succeeded = true →
      (Client.GetDNSDomains domainID (.ok code (env, dds2))).2 = .ok dds2) ∧
    ((Client.AddDNSRecord domainID rec (.ok code env)).2
        = .error (.api code env.errorCode env.errorMsg) ↔ env.succeeded = false) ∧
    (env.succeeded = true →
      (Client.AddDNSRecord domainID rec (.ok code env)).2 = .ok ()) ∧
    ((Client.DeleteDNSRecord dnsID (.ok code env)).2
        = .error (.api code env.errorCode env.errorMsg) ↔ env.succeeded = false) ∧
    (env.succeeded = true →
      (Client.DeleteDNSRecord dnsID (.ok code env)).2 = .ok ()) := by
  obtain ⟨s, ec, em⟩ := env
  cases s <;>
    simp [Client.Domains, Client.DNS, Client.GetDomain, Client.GetDNSDomains,
      Client.AddDNSRecord, Client.DeleteDNSRecord, hd, hc]

/-- Instance of `c3_api_error_iff_not_succeeded` at the non-2xx status
404 with a `succeeded:true` envelope and concrete arguments. -/
theorem c3_api_error_iff_witness :
    ((Client.Domains (.ok 404 (⟨true, "", ""⟩, []))).2
        = .error (.api 404 "" "") ↔ (true : Bool) = false) ∧
    ((true : Bool) = true →
      (Client.Domains (.ok 404 (⟨true, "", ""⟩, []))).2 = .ok []) ∧
    ((Client.DNS (.ok 404 (⟨true, "", ""⟩, []))).2
        = .error (.api 404 "" "") ↔ (true : Bool) = false) ∧
    ((true : Bool) = true →
      (Client.DNS (.ok 404 (⟨true, "", ""⟩, []))).2 = .ok []) ∧
    ((Client.GetDomain "d1" (.ok 404 (⟨true, "", ""⟩, none))).2
        = .error (.api 404 "" "") ↔ (true : Bool) = false) ∧
    ((true : Bool) = true →
      (Client.GetDomain "d1" (.ok 404 (⟨true, "", ""⟩, none))).2 = .ok none) ∧
    ((Client.GetDNSDomains "d1" (.ok 404 (⟨true, "", ""⟩, []))).2
        = .error (.api 404 "" "") ↔ (true : Bool) = false) ∧
    ((true : Bool) = true →
      (Client.GetDNSDomains "d1" (.ok 404 (⟨true, "", ""⟩, []))).2 = .ok []) ∧
    ((Client.AddDNSRecord "d1" ⟨"A", "www", "203.0.113.7", 900 * timeSecond⟩
          (.ok 404 ⟨true, "", ""⟩)).2
        = .error (.api 404 "" "") ↔ (true : Bool) = false) ∧
    ((true : Bool) = true →
      (Client.AddDNSRecord "d1" ⟨"A", "www", "203.0.113.7", 900 * timeSecond⟩
          (.ok 404 ⟨true, "", ""⟩)).2 = .ok ()) ∧
    ((Client.DeleteDNSRecord "r1" (.ok 404 ⟨true, "", ""⟩)).2
        = .error (.api 404 "" "") ↔ (true : Bool) = false) ∧
    ((true : Bool) = true →
      (Client.DeleteDNSRecord "r1" (.ok 404 ⟨true, "", ""⟩)).2 = .ok ()) :=
  c3_api_error_iff_not_succeeded 404 ⟨true, "", ""⟩ "d1" "r1"
    ⟨"A", "www", "203.0.113.7", 900 * timeSecond⟩ [] none [] []
    (by decide) (by decide)

/-- C4: `GetDomain` and `GetDNSDomains` with an empty `domainID`, and
`AddDNSRecord` with an empty record content, each return a
precondition-violation error synchronously with an empty request list —
the transport is invoked zero times, whatever outcome it would have
produced. -/
theorem c4_preconditions_block_requests (domainID : String) (rec : NewDNSRecord)
    (tr1 : DoResult (HoverResp × Option Domain))
    (tr2 : DoResult (HoverResp × List DNSDomain))
    (tr3 : DoResult HoverResp) (hc : rec.content = "") :
    Client.GetDomain "" tr1 = ([], .error (.plain "empty domainID")) ∧
    Client.GetDNSDomains "" tr2 = ([], .error (.plain "empty domainID")) ∧
    (Client.AddDNSRecord domainID rec tr3).1 = [] ∧
    ((Client.AddDNSRecord domainID rec tr3).2 = .error (.plain "empty domainID") ∨
      (Client.AddDNSRecord domainID rec tr3).2
        = .error (.plain "Content can't be empty")) := by
  refine ⟨rfl, rfl, ?_, ?_⟩ <;> unfold Client.AddDNSRecord <;>
    by_cases hdid : domainID = "" <;> simp [hdid, hc]

/-- Instance of `c4_preconditions_block_requests` at concrete arguments:
a non-empty domain id, a record with empty content, and transport doubles
that would report an error if consulted. -/
theorem c4_preconditions_witness :
    Client.GetDomain "" (.err "boom") = ([], .error (.plain "empty domainID")) ∧
    Client.GetDNSDomains "" (.err "boom") = ([], .error (.plain "empty domainID")) ∧
    (Client.AddDNSRecord "d1" ⟨"A", "www", "", 0⟩ (.err "boom")).1 = [] ∧
    ((Client.AddDNSRecord "d1" ⟨"A", "www", "", 0⟩ (.err "boom")).2
        = .error (.plain "empty domainID") ∨
      (Client.AddDNSRecord "d1" ⟨"A", "www", "", 0⟩ (.err "boom")).2
        = .error (.plain "Content can't be empty")) :=
  c4_preconditions_block_requests "d1" ⟨"A", "www", "", 0⟩
    (.err "boom") (.err "boom") (.err "boom") rfl

/-- C9: `DeleteDNSRecord` enforces no precondition on its record
identifier — for every `dnsID`, the empty string included, and every
transport outcome, it issues exactly one DELETE request to
`/dns/{dnsID}` and never returns a client-side precondition error. -/
theorem c9_delete_has_no_precondition (dnsID : String) (tr : DoResult HoverResp) :
    (Client.DeleteDNSRecord dnsID tr).1
      = [⟨"DELETE", defaultURL ++ "/dns/" ++ dnsID⟩] ∧
    ∀ m : String, (Client.DeleteDNSRecord dnsID tr).2 ≠ .error (.plain m) := by
  constructor
  · cases tr with
    | err e => rfl
    | ok code dr => cases h : dr.succeeded <;> simp [Client.DeleteDNSRecord, h]
  · intro m
    cases tr with
    | err e => simp [Client.DeleteDNSRecord]
    | ok code dr => cases h : dr.succeeded <;> simp [Client.DeleteDNSRecord, h]

/-- The result component of `Login` is the response handling applied to
the transport outcome. -/
theorem Login_snd (u p : String) (r : HTTPResult) : (Login u p r).2 = loginResponse r := rfl

/-- C5: login returns the credential exactly when the response has status
200 and contains a `hoverauth` cookie with non-empty value — the concrete
value `abc123` yields that cookie; a 200 response with no such cookie
yields `InvalidLogin` with the missing-cookie message; any non-200 status
yields `InvalidLogin` naming the status, regardless of cookies; the two
messages differ (shown at status 403). -/
theorem c5_login_cookie (u p : String) (status : Int) (anyCookies noAuth : List Cookie)
    (st : Int) (cs : List Cookie) (hs : status ≠ 200)
    (hmiss : ∀ c ∈ noAuth, ¬(c.name = "hoverauth" ∧ c.value ≠ "")) :
    (Login u p (.resp 200 [⟨"hoverauth", "abc123"⟩])).2 = .ok ⟨"hoverauth", "abc123"⟩ ∧
    (Login u p (.resp 200 noAuth)).2
      = .invalidLogin "unable to find 'hoverauth' cookie with data in response" ∧
    (Login u p (.resp status anyCookies)).2
      = .invalidLogin ("login HTTP status code was " ++ toString status) ∧
    ("login HTTP status code was " ++ toString (403 : Int))
      ≠ "unable to find 'hoverauth' cookie with data in response" ∧
    ((∃ c, (Login u p (.resp st cs)).2 = .ok c)
      ↔ st = 200 ∧ ∃ c ∈ cs, c.name = "hoverauth" ∧ c.value ≠ "") := by
  refine ⟨rfl, ?_, ?_, by decide, ?_⟩
  · have hfind : noAuth.find? (fun c => c.name == "hoverauth" && c.value != "") = none := by
      rw [List.find?_eq_none]
      intro c hcmem
      have h1 := hmiss c hcmem
      simp only [Bool.and_eq_true, beq_iff_eq, bne_iff_ne, ne_eq, not_and] at h1 ⊢
      tauto
    rw [Login_snd]
    simp only [loginResponse]
    rw [if_neg (by simp), hfind]
  · rw [Login_snd]
    simp only [loginResponse]
    rw [if_pos hs]
  · simp only [Login_snd, loginResponse]
    by_cases h200 : st = 200
    · subst h200
      rw [if_neg (by simp)]
      constructor
      · rintro ⟨c, hc⟩
        cases hfind : cs.find? (fun c => c.name == "hoverauth" && c.value != "") with
        | none =>
          rw [hfind] at hc
          exact absurd hc (by simp)
        | some c2 =>
          refine ⟨rfl, c2, List.mem_of_find?_eq_some hfind, ?_⟩
          have h2 := List.find?_some hfind
          simpa using h2
      · rintro ⟨-, c, hmem, hname, hval⟩
        have hsome : (cs.find? (fun c => c.name == "hoverauth" && c.value != "")).isSome := by
          rw [List.find?_isSome]
          exact ⟨c, hmem, by simp [hname, hval]⟩
        cases hfind : cs.find? (fun c => c.name == "hoverauth" && c.value != "") with
        | none =>
          rw [hfind] at hsome
          simp at hsome
        | some c2 =>
          exact ⟨c2, rfl⟩
    · rw [if_pos h200]
      constructor
      · rintro ⟨c, hc⟩
        exact absurd hc (by simp)
      · rintro ⟨h, -⟩
        exact absurd h h200

/-- Instance of `c5_login_cookie` at status 403, a cookie list containing
the credential (ignored at a bad status), a 200-response cookie list whose
only `hoverauth` cookie has an empty value, and a cookie list with an
empty-valued and then a non-empty `hoverauth` cookie. -/
theorem c5_login_cookie_witness :
    (Login "u" "p" (.resp 200 [⟨"hoverauth", "abc123"⟩])).2
      = .ok ⟨"hoverauth", "abc123"⟩ ∧
    (Login "u" "p" (.resp 200 [⟨"hoverauth", ""⟩])).2
      = .invalidLogin "unable to find 'hoverauth' cookie with data in response" ∧
    (Login "u" "p" (.resp 403 [⟨"hoverauth", "abc123"⟩])).2
      = .invalidLogin ("login HTTP status code was " ++ toString (403 : Int)) ∧
    ("login HTTP status code was " ++ toString (403 : Int))
      ≠ "unable to find 'hoverauth' cookie with data in response" ∧
    ((∃ c, (Login "u" "p"
          (.resp 200 [⟨"hoverauth", ""⟩, ⟨"hoverauth", "abc123"⟩])).2 = .ok c)
      ↔ (200 : Int) = 200 ∧ ∃ c ∈ [Cookie.mk "hoverauth" "", Cookie.mk "hoverauth" "abc123"],
          c.name = "hoverauth" ∧ c.value ≠ "") :=
  c5_login_cookie "u" "p" 403 [⟨"hoverauth", "abc123"⟩] [⟨"hoverauth", ""⟩]
    200 [⟨"hoverauth", ""⟩, ⟨"hoverauth", "abc123"⟩] (by decide) (by decide)

/-- Helper: the quote-stripping body succeeds on every properly quoted
input, returning exactly the content between the quotes. -/
theorem unquote_quoted (content : Bytes) (t : String) :
    unquote ('"' :: content ++ ['"']) t = .ok content := by
  have hlast : ('"' :: content ++ ['"']).getLast? = some '"' :=
    List.getLast?_concat ('"' :: content)
  have hcond : ('"' :: content ++ ['"']).head?.getD '\x00' = '"'
      ∧ ('"' :: content ++ ['"']).getLast?.getD '\x00' = '"' := by
    refine ⟨rfl, ?_⟩
    rw [hlast]
    rfl
  have hlen0 : ¬('"' :: content ++ ['"']).length = 0 := by simp
  have hlen2 : ¬('"' :: content ++ ['"']).length < 2 := by
    simp [List.length_append]
  unfold unquote
  rw [if_neg hlen0, if_pos hcond, if_neg hlen2]
  congr 1
  show (content ++ ['"']).dropLast = content
  exact List.dropLast_concat

/-- C7: for every wire value made of a leading double quote, any byte
content and a trailing double quote — the degenerate empty-quoted string
included — decoding it as a `DomainID` or `DNSRecordID` succeeds with the
unquoted content, and re-encoding the decoded identifier yields exactly
that content: decode-then-encode is the identity on the unquoted content. -/
theorem c7_id_decode_encode_identity (content : Bytes) :
    DomainID.unmarshalJSON ('"' :: content ++ ['"']) = .ok (String.mk content) ∧
    DNSRecordID.unmarshalJSON ('"' :: content ++ ['"']) = .ok (String.mk content) ∧
    encodeID (String.mk content) = content ∧
    DomainID.unmarshalJSON ('"' :: ([] : Bytes) ++ ['"']) = .ok "" := by
  refine ⟨?_, ?_, rfl, ?_⟩
  · unfold DomainID.unmarshalJSON
    rw [unquote_quoted]
    rfl
  · unfold DNSRecordID.unmarshalJSON
    rw [unquote_quoted]
    rfl
  · unfold DomainID.unmarshalJSON
    rw [unquote_quoted]
    rfl

/-- Mapping over a `GoResult` does not change whether it is a panic. -/
theorem GoResult.isPanic_map {α β : Type} (f : α → β) (r : GoResult α) :
    (r.map f).isPanic = r.isPanic := by
  cases r <;> rfl

/-- Helper: the quote-stripping body never panics except on the empty
input and on the single double-quote byte. -/
theorem unquote_isPanic_false (b : Bytes) (t : String) (h1 : b ≠ []) (h2 : b ≠ ['"']) :
    (unquote b t).isPanic = false := by
  rcases b with _ | ⟨c, rest⟩
  · exact absurd rfl h1
  · rcases rest with _ | ⟨c2, rest2⟩
    · unfold unquote
      rw [if_neg (by simp)]
      by_cases hc : c = '"'
      · subst hc
        exact absurd rfl h2
      · have hq : ¬(([c] : Bytes).head?.getD '\x00' = '"'
            ∧ ([c] : Bytes).getLast?.getD '\x00' = '"') := by
          simp [hc]
        rw [if_neg hq]
        rfl
    · unfold unquote
      rw [if_neg (by simp)]
      by_cases hq : ((c :: c2 :: rest2 : Bytes).head?.getD '\x00' = '"'
          ∧ (c :: c2 :: rest2 : Bytes).getLast?.getD '\x00' = '"')
      · rw [if_pos hq, if_neg (by simp)]
        rfl
      · rw [if_neg hq]
        rfl

/-- C10 amended: every scalar decoder returns a typed value or an error on
every input except exactly two — each quote-stripping decoder performs an
out-of-bounds index on the empty input and an out-of-bounds slice on the
single double-quote byte — while the `TTL` decoder is total on all
inputs. -/
theorem c10_decoders_total_except_two (b : Bytes) (h1 : b ≠ []) (h2 : b ≠ ['"']) :
    (RecordType.unmarshalJSON b).isPanic = false ∧
    (DomainID.unmarshalJSON b).isPanic = false ∧
    (DNSRecordID.unmarshalJSON b).isPanic = false ∧
    (Date.unmarshalJSON b).isPanic = false ∧
    (YearMonth.unmarshalJSON b).isPanic = false ∧
    ∀ b2 : Bytes, (TTL.unmarshalJSON b2).isPanic = false := by
  refine ⟨?_, ?_, ?_, ?_, ?_, ?_⟩
  · rw [RecordType.unmarshalJSON, GoResult.isPanic_map]
    exact unquote_isPanic_false b "RecordType" h1 h2
  · rw [DomainID.unmarshalJSON, GoResult.isPanic_map]
    exact unquote_isPanic_false b "DNSRecordID" h1 h2
  · rw [DNSRecordID.unmarshalJSON, GoResult.isPanic_map]
    exact unquote_isPanic_false b "DNSRecordID" h1 h2
  · unfold Date.unmarshalJSON
    cases hq : unquote b "Date" with
    | panic m =>
      have hu := unquote_isPanic_false b "Date" h1 h2
      rw [hq] at hu
      exact absurd hu (by simp [GoResult.isPanic])
    | error m => rfl
    | ok content =>
      rcases hp : parseYMD content with _ | v <;> simp [hp, GoResult.isPanic]
  · unfold YearMonth.unmarshalJSON
    cases hq : unquote b "YearMonth" with
    | panic m =>
      have hu := unquote_isPanic_false b "YearMonth" h1 h2
      rw [hq] at hu
      exact absurd hu (by simp [GoResult.isPanic])
    | error m => rfl
    | ok content =>
      rcases hp : parseYM content with _ | v <;> simp [hp, GoResult.isPanic]
  · intro b2
    unfold TTL.unmarshalJSON
    cases atoi b2 <;> rfl

/-- Instance of `c10_decoders_total_except_two` at the two-byte input
`ab` and the `TTL` input `7`. -/
theorem c10_decoders_total_witness :
    (RecordType.unmarshalJSON ("ab".data)).isPanic = false ∧
    (DomainID.unmarshalJSON ("ab".data)).isPanic = false ∧
    (DNSRecordID.unmarshalJSON ("ab".data)).isPanic = false ∧
    (Date.unmarshalJSON ("ab".data)).isPanic = false ∧
    (YearMonth.unmarshalJSON ("ab".data)).isPanic = false ∧
    (TTL.unmarshalJSON ("7".data)).isPanic = false := by
  have h := c10_decoders_total_except_two ("ab".data) (by decide) (by decide)
  exact ⟨h.1, h.2.1, h.2.2.1, h.2.2.2.1, h.2.2.2.2.1, h.2.2.2.2.2 ("7".data)⟩

end Hover
